import Mathlib

/-
Verification of `mcp.py`, a FastAPI service exposing a hard-coded catalog of
prompt entries through two read-only routes:

  * `GET /api/quotes` (`get_quotes`): returns the catalog verbatim as JSON;
  * `GET /` (`devotional_home`): renders the catalog into one HTML document by
    wrapping each entry text in `<li>...</li>`, concatenating the fragments and
    interpolating them into a fixed HTML/CSS template.

The catalog is the module-level list `TLC_ENGINEERING` of dicts with integer
field `id` and string field `text`.  Handlers are embedded as pure functions of
the catalog state; the state-passing variants `*_step` return the output paired
with the catalog after the call.
-/

/-- One catalog record: a dict `\x7b"id": int, "text": str\x7d` in the source. -/
structure PromptEntry where
  id : Int
  text : String
  deriving DecidableEq, Repr

/-- The `text` field of the single record of `TLC_ENGINEERING`. -/
def tlcText : String :=
  "As an AI assistant dedicated to TLC Engineering Solutions, your core function is to ensure the precision, compliance, and professional integrity of all legal, contractual, and formal business documents associated with engineering and architecture services. You support document integrity through detailed analysis, clause extraction, and expert-level summarization while offering authoritative guidance grounded in established industry practices when documents are not provided. Core Responsibilities: 1. Document-Based Analysis (Primary Mode): When documents are provided, they serve as the exclusive source of truth. Your responsibilities include: A. Document Summarization: Generate clear, concise, and structured summaries of uploaded documents. Highlight core legal, regulatory, and professional service elements. Focus on information relevant to engineering and architecture, particularly in the context of contractual compliance, liability exposure, and regulatory standards. B. Key Clause Extraction: Identify and accurately extract essential provisions and clauses, especially those related to: Scope of Work, Liability and Indemnity, Insurance Requirements, Regulatory and Code Compliance, Payment Terms and Conditions. Emphasize clauses that materially affect: Contractual obligations and responsibilities, Professional and legal risk, Adherence to engineering codes, permitting standards, and industry-specific regulations. 2. Contextual and OpenAI-Enhanced Guidance (When No Document is Provided): When no document is uploaded, you may draw upon OpenAI\x27s capabilities to provide legally-informed, industry-relevant guidance based on: Established practices in the engineering, construction, and architecture sectors, Widely accepted professional and regulatory standards, Best practices in contract management, liability mitigation, and project delivery. Key Deliverables in This Mode: Interpretive guidance on typical contractual structures and obligations, Clause drafting examples compliant with industry norms, Operational advice aligned with professional service firm responsibilities. Do not reference any unavailable documents or make assumptions about specific contract terms. All outputs must be generalized yet accurate, grounded in verifiable industry practice. Standards of Performance: All outputs must be: Legally Relevant – Reflect accurate legal principles applicable to engineering and architecture services Professionally Sound – Uphold industry norms, client obligations, and regulatory compliance Precise & Structured – Provide clearly organized content with no ambiguity Tone-Consistent – Maintain a formal, professional tone appropriate for contractual, legal, and business-critical communications. Supported Capabilities: In support of TLC Engineering Solutions operations, you may: Use OpenAI\x27s tools to access up-to-date information relevant to engineering and architecture, Analyze uploaded documents as the definitive source when available, Provide authoritative clause extraction and commentary, Generate summaries or interpretations tailored to project managers, legal reviewers, or executive stakeholders."

/-- Template text from the start of the f-string up to the `<header>` element: `<html>`, `<head>` with `<title>`, font link and the whole `<style>` sheet, and the `<body>` opening. -/
def tplDocHead : String :=
  "\n    <html>\n        <head>\n            <title>TLC Engineering Solutions - Document Analysis Platform</title>\n            <link href=\"https://fonts.googleapis.com/css2?family=Poppins:wght@300;400;600;700&family=Roboto:wght@300;400;500;700&display=swap\" rel=\"stylesheet\">\n            <style>\n                * \x7b\n                    margin: 0;\n                    padding: 0;\n                    box-sizing: border-box;\n                \x7d\n                body \x7b\n                    background: linear-gradient(135deg, #0f2027 0%, #203a43 50%, #2c5364 100%);\n                    font-family: \x27Roboto\x27, sans-serif;\n                    color: #333;\n                    line-height: 1.6;\n                    min-height: 100vh;\n                \x7d\n                header \x7b\n                    background: linear-gradient(90deg, #1a3a52 0%, #2c5364 100%);\n                    padding: 40px 20px;\n                    text-align: center;\n                    box-shadow: 0 8px 32px rgba(0, 0, 0, 0.3);\n                    border-bottom: 3px solid #00d4ff;\n                \x7d\n                .logo \x7b\n                    max-height: 80px;\n                    width: auto;\n                    margin-bottom: 20px;\n                    filter: drop-shadow(0 2px 8px rgba(0, 212, 255, 0.3));\n                \x7d\n                h1 \x7b\n                    font-family: \x27Poppins\x27, sans-serif;\n                    font-size: 52px;\n                    color: #ffffff;\n                    font-weight: 700;\n                    letter-spacing: 1.5px;\n                    text-transform: uppercase;\n                    margin-bottom: 10px;\n                \x7d\n                .tagline \x7b\n                    font-size: 16px;\n                    color: #00d4ff;\n                    font-weight: 300;\n                    letter-spacing: 2px;\n                \x7d\n                .container \x7b\n                    max-width: 1000px;\n                    margin: 50px auto;\n                    padding: 0 20px;\n                \x7d\n                .card \x7b\n                    background: #ffffff;\n                    border-radius: 8px;\n                    padding: 40px;\n                    box-shadow: 0 12px 48px rgba(0, 0, 0, 0.2);\n                    border-top: 4px solid #00d4ff;\n                    transition: transform 0.3s ease, box-shadow 0.3s ease;\n                \x7d\n                .card:hover \x7b\n                    transform: translateY(-5px);\n                    box-shadow: 0 16px 56px rgba(0, 212, 255, 0.15);\n                \x7d\n                h2 \x7b\n                    font-family: \x27Poppins\x27, sans-serif;\n                    font-size: 32px;\n                    color: #1a3a52;\n                    margin-bottom: 30px;\n                    font-weight: 600;\n                    border-bottom: 2px solid #e0e0e0;\n                    padding-bottom: 15px;\n                    background: linear-gradient(135deg, #1a3a52 0%, #00d4ff 100%);\n                    -webkit-background-clip: text;\n                    -webkit-text-fill-color: transparent;\n                    background-clip: text;\n                    letter-spacing: 1px;\n                \x7d\n                ul \x7b\n                    list-style: none;\n                    padding: 0;\n                \x7d\n                li \x7b\n                    margin: 20px 0;\n                    padding: 15px 20px;\n                    background: #f8f9fa;\n                    border-left: 4px solid #00d4ff;\n                    border-radius: 4px;\n                    font-size: 15px;\n                    line-height: 1.8;\n                    color: #333;\n                    transition: background 0.3s ease;\n                \x7d\n                li:hover \x7b\n                    background: #e3f2fd;\n                \x7d\n                footer \x7b\n                    text-align: center;\n                    padding: 30px;\n                    color: #888;\n                    font-size: 12px;\n                    margin-top: 50px;\n                \x7d\n            </style>\n        </head>\n        <body>\n            "

/-- Opening of the `<header>` element, including the logo `<img>`. -/
def tplHeaderOpen : String :=
  "<header>\n                <img src=\"https://tlcaidocstorage.blob.core.windows.net/assets/TLC logo.jpg\" alt=\"TLC Logo\" class=\"logo\">\n                "

/-- The title block: the `<h1>` heading and the tagline `<div>`. -/
def tplTitleBlock : String :=
  "<h1>TLC Engineering</h1>\n                <div class=\"tagline\">Document Analysis & Compliance Platform</div>"

/-- Closing of the `<header>` element. -/
def tplHeaderClose : String :=
  "\n            </header>"

/-- The container and the single content card, its `<h2>` and the opening `<ul>`, up to the `\x7bhtml_quotes\x7d` interpolation point. -/
def tplCardOpen : String :=
  "\n            <div class=\"container\">\n                <div class=\"card\">\n                    <h2>About TLC Engineering</h2>\n                    <ul>\n                        "

/-- Closing of the `<ul>`, the card and the container, from the interpolation point on. -/
def tplCardClose : String :=
  "\n                    </ul>\n                </div>\n            </div>\n            "

/-- The `<footer>` element. -/
def tplFooterBlock : String :=
  "<footer>\n                <p>&copy; 2025 TLC Engineering Solutions. All rights reserved. | Powered by Advanced Document Analysis AI</p>\n            </footer>"

/-- Closing `</body></html>` and the trailing whitespace of the f-string. -/
def tplDocTail : String :=
  "\n        </body>\n    </html>\n    "

/-- Template text of the f-string before the `\x7bhtml_quotes\x7d` interpolation
point, assembled from its sections. -/
def htmlPre : String :=
  tplDocHead ++ tplHeaderOpen ++ tplTitleBlock ++ tplHeaderClose ++ tplCardOpen

/-- Template text of the f-string after the interpolation point. -/
def htmlPost : String :=
  tplCardClose ++ tplFooterBlock ++ tplDocTail

/-- The catalog literal `TLC_ENGINEERING` of `mcp.py` (one entry). -/
def TLC_ENGINEERING : List PromptEntry :=
  [⟨1, tlcText⟩]

/-- Handler of `GET /api/quotes`: `return TLC_ENGINEERING`, as a function of the
catalog state it reads. -/
def get_quotes (catalog : List PromptEntry) : List PromptEntry :=
  catalog

/-- Handler of `GET /`: joins the list-item fragments and interpolates them into
the fixed template (`htmlPre`/`htmlPost` are the template around
`\x7bhtml_quotes\x7d`). -/
def devotional_home (catalog : List PromptEntry) : String :=
  let html_quotes := String.join (catalog.map (fun q => "<li>" ++ q.text ++ "</li>"))
  htmlPre ++ html_quotes ++ htmlPost

/-- State-passing form of `get_quotes`: output paired with the catalog after the
call (the handler body contains no assignment to the catalog). -/
def get_quotes_step (catalog : List PromptEntry) : List PromptEntry × List PromptEntry :=
  (get_quotes catalog, catalog)

/-- State-passing form of `devotional_home`. -/
def devotional_home_step (catalog : List PromptEntry) : String × List PromptEntry :=
  (devotional_home catalog, catalog)

/-- A raw catalog record as a Python dict whose `"id"` and `"text"` keys may be
absent; subscripting an absent key raises `KeyError`, modelled by `none`. -/
structure RawEntry where
  id : Option Int
  text : Option String
  deriving DecidableEq, Repr

/-- Handler of `GET /api/quotes` over raw records: it returns the list without
touching any field, so it is total. -/
def get_quotes_raw (catalog : List RawEntry) : List RawEntry :=
  catalog

/-- The sequence of `q["text"]` lookups performed by the list comprehension of
`devotional_home`; `none` as soon as one lookup raises. -/
def lookupTexts : List RawEntry → Option (List String)
  | [] => some []
  | q :: qs =>
    match q.text, lookupTexts qs with
    | some t, some ts => some (t :: ts)
    | _, _ => none

/-- Handler of `GET /` over raw records: `none` when a `q["text"]` lookup
raises, otherwise the rendered document. -/
def devotional_home_raw (catalog : List RawEntry) : Option String :=
  match lookupTexts catalog with
  | none => none
  | some texts =>
    some (htmlPre ++ String.join (texts.map (fun t => "<li>" ++ t ++ "</li>")) ++ htmlPost)

/-- Modelled from the spec: the HTML escaping of the markup-significant
characters `&`, `<`, `>` that §4.3 and §9 mandate before embedding entry text,
and which is absent from `mcp.py` (the source interpolates `q["text"]` raw). -/
def escapeHtml (s : String) : String :=
  String.join (s.data.map (fun c =>
    if c = '&' then "&amp;"
    else if c = '<' then "&lt;"
    else if c = '>' then "&gt;"
    else String.singleton c))

/-- Claim C1: for every catalog state, `get_quotes` returns a sequence of the
same length whose `id` and `text` fields equal the catalog's entries pairwise
and in order — it is the catalog itself, nothing omitted, added, filtered or
reordered. -/
theorem get_quotes_returns_catalog_verbatim (catalog : List PromptEntry) :
    get_quotes catalog = catalog
    ∧ (get_quotes catalog).length = catalog.length
    ∧ (get_quotes catalog).map (fun q => (q.id, q.text))
        = catalog.map (fun q => (q.id, q.text)) :=
  ⟨rfl, rfl, rfl⟩

/-- Claim C2: on the entry text `Hello <b>world</b>` the page route interpolates
the text raw: the rendered document is the template around the unescaped
fragment `<li>Hello <b>world</b></li>`, which differs from the list item the
spec mandates, built from `escapeHtml` of the text (which is the escaped
fragment `Hello &lt;b&gt;world&lt;/b&gt;`). -/
theorem devotional_home_interpolates_markup_unescaped :
    devotional_home [⟨1, "Hello <b>world</b>"⟩]
      = htmlPre ++ "<li>Hello <b>world</b></li>" ++ htmlPost
    ∧ escapeHtml "Hello <b>world</b>" = "Hello &lt;b&gt;world&lt;/b&gt;"
    ∧ ("<li>Hello <b>world</b></li>" : String)
        ≠ "<li>" ++ escapeHtml "Hello <b>world</b>" ++ "</li>" :=
  ⟨rfl, by decide, by decide⟩

/-- Claim C3: for every catalog state the page route wraps each entry text into
a `<li>` fragment, concatenates the fragments in catalog order, and interpolates
the concatenation into the fixed template `htmlPre ++ _ ++ htmlPost`, whose
parts — document head, header with its title block, the one content card, the
footer and the document tail — are constants not depending on the catalog. -/
theorem devotional_home_fixed_template_structure (catalog : List PromptEntry) :
    devotional_home catalog
      = htmlPre
        ++ String.join (catalog.map (fun q => "<li>" ++ q.text ++ "</li>"))
        ++ htmlPost
    ∧ htmlPre = tplDocHead ++ tplHeaderOpen ++ tplTitleBlock ++ tplHeaderClose ++ tplCardOpen
    ∧ htmlPost = tplCardClose ++ tplFooterBlock ++ tplDocTail :=
  ⟨rfl, rfl, rfl⟩

/-- Claim C4: on the empty catalog the data route returns the empty sequence and
the page route returns the complete fixed document with an empty list inside the
content card; in the raw model neither handler raises (`devotional_home_raw`
returns `some`). -/
theorem empty_catalog_yields_empty_outputs :
    get_quotes [] = ([] : List PromptEntry)
    ∧ devotional_home [] = htmlPre ++ "" ++ htmlPost
    ∧ get_quotes_raw [] = ([] : List RawEntry)
    ∧ devotional_home_raw [] = some (htmlPre ++ "" ++ htmlPost) :=
  ⟨rfl, rfl, rfl, rfl⟩

/-- Claim C5: when the catalog's ids are pairwise distinct, the ids returned by
the data route are pairwise distinct and equal the catalog's ids element by
element. -/
theorem get_quotes_ids_roundtrip (catalog : List PromptEntry)
    (h : (catalog.map (fun q => q.id)).Nodup) :
    ((get_quotes catalog).map (fun q => q.id)).Nodup
    ∧ (get_quotes catalog).map (fun q => q.id) = catalog.map (fun q => q.id) :=
  ⟨h, rfl⟩

/-- Witness for C5 at the concrete catalog of the program. -/
theorem get_quotes_ids_roundtrip_witness :
    (TLC_ENGINEERING.map (fun q => q.id)).Nodup
    ∧ ((get_quotes TLC_ENGINEERING).map (fun q => q.id)).Nodup
    ∧ (get_quotes TLC_ENGINEERING).map (fun q => q.id)
        = TLC_ENGINEERING.map (fun q => q.id) :=
  ⟨by decide,
   (get_quotes_ids_roundtrip TLC_ENGINEERING (by decide)).1,
   (get_quotes_ids_roundtrip TLC_ENGINEERING (by decide)).2⟩

/-- Claim C6: both handlers are deterministic and idempotent — a second call,
run from the state left by the first, returns the same output as the first, and
each call's output is the pure function of the catalog (the handlers consume no
request input). -/
theorem routes_deterministic_idempotent (catalog : List PromptEntry) :
    (get_quotes_step ((get_quotes_step catalog).2)).1 = (get_quotes_step catalog).1
    ∧ (devotional_home_step ((devotional_home_step catalog).2)).1
        = (devotional_home_step catalog).1
    ∧ (get_quotes_step catalog).1 = get_quotes catalog
    ∧ (devotional_home_step catalog).1 = devotional_home catalog :=
  ⟨rfl, rfl, rfl, rfl⟩

/-- Claim C7: neither handler mutates the catalog — after either call the
catalog, with its length, order and every entry's `id` and `text`, is unchanged. -/
theorem routes_do_not_mutate_catalog (catalog : List PromptEntry) :
    (get_quotes_step catalog).2 = catalog
    ∧ (devotional_home_step catalog).2 = catalog
    ∧ ((get_quotes_step catalog).2).length = catalog.length
    ∧ ((get_quotes_step catalog).2).map (fun q => (q.id, q.text))
        = catalog.map (fun q => (q.id, q.text))
    ∧ ((devotional_home_step catalog).2).map (fun q => (q.id, q.text))
        = catalog.map (fun q => (q.id, q.text)) :=
  ⟨rfl, rfl, rfl, rfl, rfl⟩

/-- Claim C8: the concrete catalog literal `TLC_ENGINEERING` satisfies the data
model invariants: every id is a positive integer, the ids are pairwise distinct,
and every text is a non-empty string. -/
theorem tlc_catalog_satisfies_invariants :
    (∀ q ∈ TLC_ENGINEERING, 0 < q.id ∧ q.text ≠ "")
    ∧ (TLC_ENGINEERING.map (fun q => q.id)).Nodup := by
  constructor
  · decide
  · decide

/-- Claim C9: over raw records, when every entry has both its `id` and its
`text` field present, both handlers evaluate totally: the data route returns the
list and the page route's string construction succeeds (no `KeyError`). -/
theorem routes_total_on_wellformed_catalog (catalog : List RawEntry)
    (h : ∀ q ∈ catalog, q.id.isSome = true ∧ q.text.isSome = true) :
    get_quotes_raw catalog = catalog
    ∧ (devotional_home_raw catalog).isSome = true := by
  refine ⟨rfl, ?_⟩
  have hlook : (lookupTexts catalog).isSome = true := by
    induction catalog with
    | nil => rfl
    | cons q qs ih =>
      have hq := (h q (List.mem_cons_self q qs)).2
      have hqs : ∀ r ∈ qs, r.id.isSome = true ∧ r.text.isSome = true :=
        fun r hr => h r (List.mem_cons_of_mem q hr)
      obtain ⟨t, ht⟩ := Option.isSome_iff_exists.mp hq
      obtain ⟨ts, hts⟩ := Option.isSome_iff_exists.mp (ih hqs)
      simp [lookupTexts, ht, hts]
  obtain ⟨ts, hts⟩ := Option.isSome_iff_exists.mp hlook
  simp [devotional_home_raw, hts]

/-- Witness for C9 at a concrete two-entry raw catalog. -/
theorem routes_total_on_wellformed_catalog_witness :
    (∀ q ∈ [RawEntry.mk (some 1) (some "a"), RawEntry.mk (some 2) (some "b")],
        q.id.isSome = true ∧ q.text.isSome = true)
    ∧ (devotional_home_raw
        [RawEntry.mk (some 1) (some "a"), RawEntry.mk (some 2) (some "b")]).isSome
        = true :=
  ⟨by decide,
   (routes_total_on_wellformed_catalog
      [RawEntry.mk (some 1) (some "a"), RawEntry.mk (some 2) (some "b")]
      (by decide)).2⟩

/-- Claim C10: the page route's output depends only on the sequence of entry
texts — two catalogs with the same texts in the same order render to the same
document, whatever their ids. -/
theorem devotional_home_depends_only_on_texts (c₁ c₂ : List PromptEntry)
    (h : c₁.map (fun q => q.text) = c₂.map (fun q => q.text)) :
    devotional_home c₁ = devotional_home c₂ := by
  have hmap : c₁.map (fun q => "<li>" ++ q.text ++ "</li>")
      = c₂.map (fun q => "<li>" ++ q.text ++ "</li>") := by
    have h₂ := congrArg (List.map (fun t => "<li>" ++ t ++ "</li>")) h
    simpa [List.map_map, Function.comp] using h₂
  simp only [devotional_home, hmap]

/-- Witness for C10: two one-entry catalogs with equal texts and different ids. -/
theorem devotional_home_depends_only_on_texts_witness :
    ([PromptEntry.mk 1 "a"].map (fun q => q.text)
        = [PromptEntry.mk 2 "a"].map (fun q => q.text))
    ∧ devotional_home [PromptEntry.mk 1 "a"] = devotional_home [PromptEntry.mk 2 "a"] :=
  ⟨rfl, devotional_home_depends_only_on_texts _ _ rfl⟩
